import Mathlib

/-!
Shallow embedding of the decision logic of the `pep_checker` Odoo module
(src/models/pep.py): the `pep.person` derived fields (`pep_type`,
`risk_level`, `edd_next_review`), the validation constraints, the EDD
review scheduler sweep, and the `pep.screening` name-screening workflow.
Selection fields become closed inductive types; optional relational or
selection fields become `Option`; the Odoo `Integer` year fields keep the
source convention that `0` is the unset (falsy) value; dates are explicit
year/month/day triples with the month arithmetic of
`dateutil.relativedelta` made explicit.
-/

namespace PepChecker

/-- Risk levels of the `risk_level` selection field. -/
inductive RiskLevel
  | low
  | medium
  | high
deriving DecidableEq

/-- Values of the `status` selection field of `pep.person`. -/
inductive PepStatus
  | active
  | former
  | deceased
deriving DecidableEq

/-- Values of the computed `pep_type` selection field. -/
inductive PepType
  | domestic
  | foreign
  | international
deriving DecidableEq

/-- Values of the `organization_type` selection field. -/
inductive OrgType
  | government
  | political_party
  | judiciary
  | military
  | state_owned
  | international_org
  | other
deriving DecidableEq

/-- Values of the `position` selection field. -/
inductive Position
  | head_state
  | parliament
  | governor
  | judicial
  | central_bank_board
  | diplomat_military
  | state_enterprise
  | party_official
  | intl_director
  | intl_board
  | intl_senior
  | other
deriving DecidableEq

/-- Values of the `edd_status` selection field. -/
inductive EddStatus
  | pending
  | in_progress
  | completed
  | review_needed
deriving DecidableEq

/-- Values of the `monitoring_frequency` selection field. -/
inductive MonitoringFrequency
  | monthly
  | quarterly
  | semi_annual
  | annual
deriving DecidableEq

/-- A `res.country` record: identity plus its ISO code, the two aspects the
module reads. -/
structure Country where
  id : Nat
  code : String
deriving DecidableEq

/-- A calendar date, as a year/month/day triple. -/
structure Date where
  year : Int
  month : Nat
  day : Nat
deriving DecidableEq

/-- Gregorian leap-year rule. -/
def isLeapYear (y : Int) : Bool :=
  (y % 4 == 0 && y % 100 != 0) || y % 400 == 0

/-- Number of days in a month of a given year. -/
def daysInMonth (y : Int) (m : Nat) : Nat :=
  if m = 2 then (if isLeapYear y then 29 else 28)
  else if m = 4 ∨ m = 6 ∨ m = 9 ∨ m = 11 then 30
  else 31

/-- Month addition with day clamping, the semantics of
`dateutil.relativedelta(months=n)`: advance the month (carrying into the
year) and clamp the day of month to the last valid day of the target
month. -/
def addMonths (d : Date) (n : Nat) : Date :=
  let m0 : Nat := d.month - 1 + n
  let y : Int := d.year + Int.ofNat (m0 / 12)
  let m : Nat := m0 % 12 + 1
  { year := y, month := m, day := min d.day (daysInMonth y m) }

/-- Lexicographic order on dates, matching chronological order. -/
def dateLe (a b : Date) : Bool :=
  a.year < b.year ||
    (a.year == b.year &&
      (a.month < b.month || (a.month == b.month && a.day ≤ b.day)))

/-- The fields of a `pep.person` record that the decision logic reads or
writes.  An unset `Many2one` or selection is `none`; the `end_date`
Integer field keeps the Odoo convention that `0` is the unset (falsy)
value. -/
structure PepRec where
  id : Nat
  name : String
  nationality : Option Country
  organization_type : Option OrgType
  position : Position
  pep_type : PepType
  status : PepStatus
  end_date : Int
  risk_level : RiskLevel
  edd_status : EddStatus
  edd_last_review : Option Date
  edd_next_review : Option Date
  monitoring_frequency : MonitoringFrequency
deriving DecidableEq

/-- Embedding of `PEPPerson._compute_pep_type`: international organizations
first, then domestic when nationality and the company country are both set
and equal, otherwise foreign. -/
def compute_pep_type (company_country : Option Country) (r : PepRec) : PepType :=
  if r.organization_type = some OrgType.international_org then
    PepType.international
  else if r.nationality ≠ none ∧ company_country ≠ none ∧ r.nationality = company_country then
    PepType.domestic
  else
    PepType.foreign

/-- Embedding of `PEPPerson._compute_risk_level`.  `todayYear` stands for
`date.today().year`.  The Python chain ends in
`elif record.pep_type == international`, which is exhaustive because the
`pep_type` selection has exactly the three values of `PepType`, so the
final two branches here cover it. -/
def compute_risk_level (todayYear : Int) (r : PepRec) : RiskLevel :=
  if r.status = PepStatus.deceased then
    RiskLevel.low
  else if r.status = PepStatus.former then
    if r.end_date ≠ 0 ∧ todayYear - r.end_date > 5 then RiskLevel.low
    else RiskLevel.medium
  else if r.pep_type = PepType.domestic then
    RiskLevel.high
  else if r.pep_type = PepType.foreign then
    RiskLevel.high
  else if r.position = Position.intl_director ∨ r.position = Position.intl_board then
    RiskLevel.high
  else
    RiskLevel.medium

/-- Months added per `monitoring_frequency` value, as assigned to
`months_to_add` in `PEPPerson._compute_next_review`. -/
def months_for_frequency : MonitoringFrequency → Nat
  | MonitoringFrequency.monthly => 1
  | MonitoringFrequency.quarterly => 3
  | MonitoringFrequency.semi_annual => 6
  | MonitoringFrequency.annual => 12

/-- Embedding of `PEPPerson._compute_next_review` with the `relativedelta`
library available (the source falls back to an unset date only when that
optional import is missing): no last review forces an immediate review
dated today, otherwise the last review advanced by the frequency.  Every
frequency value maps to a positive month count, so the
`months_to_add > 0` guard of the source always holds here. -/
def compute_next_review (today : Date) (edd_last_review : Option Date)
    (freq : MonitoringFrequency) : Option Date :=
  match edd_last_review with
  | none => some today
  | some d => some (addMonths d (months_for_frequency freq))

/-- The validation errors raised by the `pep.person` constraints under
study. -/
inductive ValidationError
  | international_pep_org
  | mongolian_name_format
deriving DecidableEq

/-- Embedding of `PEPPerson._check_pep_type_consistency`: an international
PEP must belong to an international organization. -/
def check_pep_type_consistency (r : PepRec) : Except ValidationError Unit :=
  if r.pep_type = PepType.international ∧ r.organization_type ≠ some OrgType.international_org then
    Except.error ValidationError.international_pep_org
  else
    Except.ok ()

/-- Membership in the Cyrillic block U+0400 to U+04FF, the first character
class of the source regex. -/
def isCyrillicChar (c : Char) : Bool :=
  0x400 ≤ c.toNat && c.toNat ≤ 0x4FF

/-- The whitespace characters matched by a Unicode-mode Python regex
whitespace class. -/
def isPyWhitespace (c : Char) : Bool :=
  let n := c.toNat
  (0x9 ≤ n && n ≤ 0xD) || n == 0x20 || (0x1C ≤ n && n ≤ 0x1F) || n == 0x85 ||
    n == 0xA0 || n == 0x1680 || (0x2000 ≤ n && n ≤ 0x200A) || n == 0x2028 ||
    n == 0x2029 || n == 0x202F || n == 0x205F || n == 0x3000

/-- The word-character class of a Unicode-mode Python regex, restricted to
the scripts this module's data exercises: ASCII digits, ASCII letters, the
underscore, the Latin-1 and Latin Extended letters, and the Cyrillic
block.  In particular Cyrillic letters ARE word characters, which matters
for the name-format constraint below. -/
def isWordChar (c : Char) : Bool :=
  let n := c.toNat
  (0x30 ≤ n && n ≤ 0x39) || (0x41 ≤ n && n ≤ 0x5A) || (0x61 ≤ n && n ≤ 0x7A) ||
    n == 0x5F || (0xC0 ≤ n && n ≤ 0xD6) || (0xD8 ≤ n && n ≤ 0xF6) ||
    (0xF8 ≤ n && n ≤ 0x24F) || (0x400 ≤ n && n ≤ 0x4FF)

/-- The leading character class of the source regex: Cyrillic, whitespace,
dot or hyphen. -/
def isClass1Char (c : Char) : Bool :=
  isCyrillicChar c || isPyWhitespace c || c == Char.ofNat 0x2E || c == Char.ofNat 0x2D

/-- The parenthesized character class of the source regex: word character,
whitespace, dot or hyphen. -/
def isClass2Char (c : Char) : Bool :=
  isWordChar c || isPyWhitespace c || c == Char.ofNat 0x2E || c == Char.ofNat 0x2D

/-- Whether `mongolian_name_pattern.match(s)` succeeds, for the source
regex anchored on both sides.  Neither character class contains a
parenthesis, so a successful match decomposes the string as a run of
class-1 characters of length at least two ending in a whitespace (the
mandatory whitespace of the regex is itself a class-1 character), the
first opening parenthesis, a nonempty run of class-2 characters, and a
final closing parenthesis; a Python end anchor also tolerates one
trailing newline. -/
def mongolian_name_match (s : String) : Bool :=
  let cs0 := s.data
  let cs := if cs0.getLast? = some (Char.ofNat 0xA) then cs0.dropLast else cs0
  let pre := cs.takeWhile (fun c => c != Char.ofNat 0x28)
  let rest := cs.drop pre.length
  match rest with
  | _ :: tl =>
      decide (2 ≤ pre.length) && pre.all isClass1Char &&
      (match pre.getLast? with
       | some w => isPyWhitespace w
       | none => false) &&
      (match tl.getLast? with
       | some cl => cl == Char.ofNat 0x29
       | none => false) &&
      decide (tl.dropLast ≠ []) && (tl.dropLast).all isClass2Char
  | [] => false

/-- Latin letters, for the formalisation of the claim wording below. -/
def isLatinLetter (c : Char) : Bool :=
  (0x41 ≤ c.toNat && c.toNat ≤ 0x5A) || (0x61 ≤ c.toNat && c.toNat ≤ 0x7A)

/-- Formalisation of the CLAIM wording (not of the source): a Cyrillic
name, i.e. a leading segment of Cyrillic letters with spaces, dots or
hyphens containing at least one Cyrillic letter and ending in a
whitespace, followed by a parenthesized Latin transliteration, i.e. a
nonempty segment of Latin letters with spaces, dots or hyphens containing
at least one Latin letter.  This is compared against the source matcher
`mongolian_name_match`. -/
def claimed_mongolian_pattern (s : String) : Bool :=
  let cs := s.data
  let pre := cs.takeWhile (fun c => c != Char.ofNat 0x28)
  let rest := cs.drop pre.length
  match rest with
  | _ :: tl =>
      decide (2 ≤ pre.length) && pre.all isClass1Char && pre.any isCyrillicChar &&
      (match pre.getLast? with
       | some w => isPyWhitespace w
       | none => false) &&
      (match tl.getLast? with
       | some cl => cl == Char.ofNat 0x29
       | none => false) &&
      decide (tl.dropLast ≠ []) &&
      (tl.dropLast).all (fun c => isLatinLetter c || isPyWhitespace c ||
        c == Char.ofNat 0x2E || c == Char.ofNat 0x2D) &&
      (tl.dropLast).any isLatinLetter
  | [] => false

/-- Embedding of `PEPPerson._check_mongolian_name_format`: for a record
whose nationality code is `MN`, an unset name or a name the regex does not
match raises a validation error.  An unset nationality reads as a falsy
code in the source and skips the check. -/
def check_mongolian_name_format (r : PepRec) : Except ValidationError Unit :=
  match r.nationality with
  | some c =>
      if c.code = "MN" then
        if r.name ≠ "" ∧ mongolian_name_match r.name = true then Except.ok ()
        else Except.error ValidationError.mongolian_name_format
      else Except.ok ()
  | none => Except.ok ()

/-- Running the two `api.constrains` checks of `pep.person` in their
source order. -/
def validate_pep (r : PepRec) : Except ValidationError Unit :=
  match check_pep_type_consistency r with
  | Except.error e => Except.error e
  | Except.ok _ => check_mongolian_name_format r

/-- Persisting a record into a store: the constraints run and any failure
aborts the transaction, so an error leaves the store unchanged and an
accepted record is appended as-is (never silently corrected). -/
def persist (store : List PepRec) (r : PepRec) : Except ValidationError (List PepRec) :=
  match validate_pep r with
  | Except.error e => Except.error e
  | Except.ok _ => Except.ok (store ++ [r])

/-- The structured verdict parsed from the external classifier response in
`PEPScreening.action_screen_name`: `result_data.get` keys.  A missing
`is_pep` key reads as falsy, so it is modelled as a plain Bool. -/
structure AIVerdict where
  is_pep : Bool
  summary : Option String
  source_urls : List String
deriving DecidableEq

/-- Outcome of the external classifier call after the response text is
cleaned and fed to the JSON decoder: a parsed verdict, a
`json.JSONDecodeError`, or a transport-level exception from the service
call. -/
inductive ExternalResponse
  | parsed (v : AIVerdict)
  | malformed
  | transport_failure
deriving DecidableEq

/-- The environment `action_screen_name` consults: availability of the
generative-AI library, the configured API key system parameter, the
external response, and the current timestamp. -/
structure ScreenEnv where
  genai_available : Bool
  api_key : Option String
  ai_response : ExternalResponse
  now : Nat
deriving DecidableEq

/-- The `UserError` exits of `action_screen_name`. -/
inductive ScreenError
  | missing_library
  | missing_api_key
  | malformed_external_response
  | external_service_error
deriving DecidableEq

/-- Values of the `result` selection field of `pep.screening`. -/
inductive ScreenResult
  | match_
  | possible
  | no_match
deriving DecidableEq

/-- Values of the `screening_method` selection field. -/
inductive ScreeningMethod
  | database
  | media
  | official
  | manual
  | ai_screening
deriving DecidableEq

/-- The fields of a `pep.screening` record that `action_screen_name` reads
or writes.  `confidence_score` is the Float field, modelled as an optional
rational; nothing in the source ever writes it. -/
structure ScreeningRec where
  name : String
  result : Option ScreenResult
  matched_pep_id : Option Nat
  confidence_score : Option ℚ
  notes : Option String
  evidence_refs : Option String
  screening_method : ScreeningMethod
  screening_date : Nat
deriving DecidableEq

/-- Note written on a unique internal match (the display string is
abbreviated; rendering of selection labels is out of scope). -/
def internal_match_note (p : PepRec) : String :=
  "Internal DB Match: Found " ++ p.name

/-- Note written on multiple internal matches, joining the matched
names. -/
def internal_multi_note (peps : List PepRec) : String :=
  "Internal DB: Found multiple possible matches: " ++
    String.intercalate ", " (peps.map PepRec.name)

/-- Result of one `action_screen_name` run: the final state of the
screening record, whether the external classifier was invoked, and the
raised error if any (an error leaves the record as it was). -/
structure ScreenOutcome where
  record : ScreeningRec
  external_called : Bool
  error : Option ScreenError
deriving DecidableEq

/-- Embedding of `PEPScreening.action_screen_name`, parameterised by the
result `matched_peps` of the internal database search (the phonetic-OR-
substring query).  Any internal candidate resolves the screening without
an external call; only an empty internal result escalates to the external
classifier, whose parsed verdict maps `is_pep` to a possible match needing
manual review and its absence to no match.  A decode failure or service
exception raises and writes nothing. -/
def action_screen_name (env : ScreenEnv) (matched_peps : List PepRec)
    (rec : ScreeningRec) : ScreenOutcome :=
  match matched_peps with
  | [p] =>
      { record := { rec with
          result := some ScreenResult.match_,
          matched_pep_id := some p.id,
          notes := some (internal_match_note p),
          screening_method := ScreeningMethod.database,
          screening_date := env.now },
        external_called := false,
        error := none }
  | [] =>
      if env.genai_available = false then
        { record := rec, external_called := false,
          error := some ScreenError.missing_library }
      else
        match env.api_key with
        | none =>
            { record := rec, external_called := false,
              error := some ScreenError.missing_api_key }
        | some _ =>
            match env.ai_response with
            | ExternalResponse.parsed v =>
                if v.is_pep then
                  { record := { rec with
                      result := some ScreenResult.possible,
                      notes := some (v.summary.getD "No summary provided."),
                      evidence_refs := some (String.intercalate "\n" v.source_urls),
                      screening_method := ScreeningMethod.ai_screening,
                      screening_date := env.now },
                    external_called := true,
                    error := none }
                else
                  { record := { rec with
                      result := some ScreenResult.no_match,
                      notes := some (v.summary.getD "No match found."),
                      screening_method := ScreeningMethod.ai_screening,
                      screening_date := env.now },
                    external_called := true,
                    error := none }
            | ExternalResponse.malformed =>
                { record := rec, external_called := true,
                  error := some ScreenError.malformed_external_response }
            | ExternalResponse.transport_failure =>
                { record := rec, external_called := true,
                  error := some ScreenError.external_service_error }
  | p :: q :: rest =>
      { record := { rec with
          result := some ScreenResult.possible,
          notes := some (internal_multi_note (p :: q :: rest)),
          screening_method := ScreeningMethod.database,
          screening_date := env.now },
        external_called := false,
        error := none }

/-- The search domain of `PEPPerson._run_edd_review_scheduler`: high risk,
active, next EDD review on or before today, and not already flagged.  A
record with no next-review date is excluded, as a NULL column compares
false. -/
def due_for_review (today : Date) (p : PepRec) : Bool :=
  decide (p.risk_level = RiskLevel.high) &&
  (match p.edd_next_review with
   | some d => dateLe d today
   | none => false) &&
  decide (p.status = PepStatus.active) &&
  decide (p.edd_status ≠ EddStatus.review_needed)

/-- Setting `edd_status = review_needed` on a selected record. -/
def flag_review (p : PepRec) : PepRec :=
  { p with edd_status := EddStatus.review_needed }

/-- Result of one scheduler run: the updated store and the ids for which a
review activity was created, in order. -/
structure SweepResult where
  peps : List PepRec
  notified : List Nat
deriving DecidableEq

/-- Embedding of `PEPPerson._run_edd_review_scheduler`.  `refs_ok` stands
for the manager group and the to-do activity type both resolving; when the
selection is empty or the references are missing the method returns
without touching anything, otherwise every selected record is flagged and
gets exactly one activity. -/
def run_edd_review_scheduler (refs_ok : Bool) (today : Date)
    (peps : List PepRec) : SweepResult :=
  let selected := peps.filter (due_for_review today)
  if selected = [] then { peps := peps, notified := [] }
  else if refs_ok = false then { peps := peps, notified := [] }
  else
    { peps := peps.map (fun p => if due_for_review today p then flag_review p else p),
      notified := selected.map PepRec.id }

/-- A baseline concrete record used to instantiate theorems. -/
def basePep : PepRec :=
  { id := 1
    name := "John Doe"
    nationality := none
    organization_type := some OrgType.government
    position := Position.parliament
    pep_type := PepType.foreign
    status := PepStatus.active
    end_date := 0
    risk_level := RiskLevel.high
    edd_status := EddStatus.pending
    edd_last_review := none
    edd_next_review := none
    monitoring_frequency := MonitoringFrequency.quarterly }

/-- Mongolia as a `res.country` record. -/
def mnCountry : Country := { id := 496, code := "MN" }

/-- A second country, for derivation tests. -/
def deCountry : Country := { id := 276, code := "DE" }

/-- A concrete screening record in its initial state: nothing resolved
yet, the confidence score at its never-written default. -/
def rec0 : ScreeningRec :=
  { name := "John Doe"
    result := none
    matched_pep_id := none
    confidence_score := none
    notes := none
    evidence_refs := none
    screening_method := ScreeningMethod.manual
    screening_date := 0 }

/-- An environment with the AI library installed and an API key
configured, carrying a chosen external response. -/
def env_ok (resp : ExternalResponse) : ScreenEnv :=
  { genai_available := true, api_key := some "k", ai_response := resp, now := 5 }

/-- A parsed external verdict asserting PEP status. -/
def verdict_pep : AIVerdict :=
  { is_pep := true, summary := none, source_urls := [] }

/-- A parsed external verdict denying PEP status. -/
def verdict_no : AIVerdict :=
  { is_pep := false, summary := none, source_urls := [] }

/-- Claim C2: for a former (non-deceased) PEP the risk level is low when
the years elapsed since the position end year exceed 5 and medium
otherwise, including the case of an unset end year. -/
theorem C2_former_risk (y : Int) (r : PepRec) (hs : r.status = PepStatus.former) :
    (r.end_date ≠ 0 → y - r.end_date > 5 → compute_risk_level y r = RiskLevel.low) ∧
    (r.end_date ≠ 0 → y - r.end_date ≤ 5 → compute_risk_level y r = RiskLevel.medium) ∧
    (r.end_date = 0 → compute_risk_level y r = RiskLevel.medium) := by
  refine ⟨fun he hgt => ?_, fun he hle => ?_, fun he => ?_⟩ <;>
    simp [compute_risk_level, hs] <;> omega

/-- Witness for C2 at concrete inputs: an end year six years back is low
risk, two years back is medium risk. -/
theorem C2_former_risk_witness :
    compute_risk_level 2026 { basePep with status := PepStatus.former, end_date := 2020 }
        = RiskLevel.low ∧
    compute_risk_level 2026 { basePep with status := PepStatus.former, end_date := 2024 }
        = RiskLevel.medium := by
  constructor
  · exact (C2_former_risk 2026
      { basePep with status := PepStatus.former, end_date := 2020 } rfl).1
      (by decide) (by decide)
  · exact (C2_former_risk 2026
      { basePep with status := PepStatus.former, end_date := 2024 } rfl).2.1
      (by decide) (by decide)

/-- Claim C3: `pep_type` derives to international whenever the
organization type is an international organization, regardless of
nationality; otherwise to domestic exactly when nationality and home
jurisdiction are both set and equal, and to foreign in every other case,
including an unset nationality. -/
theorem C3_pep_type_derivation (company_country : Option Country) (r : PepRec) :
    (r.organization_type = some OrgType.international_org →
        compute_pep_type company_country r = PepType.international) ∧
    (r.organization_type ≠ some OrgType.international_org →
        (∀ c, r.nationality = some c → company_country = some c →
            compute_pep_type company_country r = PepType.domestic) ∧
        (¬ (∃ c, r.nationality = some c ∧ company_country = some c) →
            compute_pep_type company_country r = PepType.foreign)) := by
  refine ⟨fun h => ?_, fun h => ⟨fun c hn hc => ?_, fun hno => ?_⟩⟩
  · simp [compute_pep_type, h]
  · simp [compute_pep_type, h, hn, hc]
  · have hne : ¬ (r.nationality ≠ none ∧ company_country ≠ none ∧
        r.nationality = company_country) := by
      rintro ⟨h1, h2, h3⟩
      rcases Option.ne_none_iff_exists.mp h1 with ⟨c, hc⟩
      exact hno ⟨c, hc.symm, by rw [← h3, ← hc]⟩
    simp [compute_pep_type, h, hne]

/-- Witness for C3 at concrete inputs: an international organization gives
an international PEP even with a foreign nationality; a nationality equal
to the home country gives domestic; an unset nationality gives foreign. -/
theorem C3_pep_type_derivation_witness :
    compute_pep_type (some mnCountry)
        { basePep with organization_type := some OrgType.international_org,
                       nationality := some deCountry } = PepType.international ∧
    compute_pep_type (some mnCountry)
        { basePep with nationality := some mnCountry } = PepType.domestic ∧
    compute_pep_type (some mnCountry)
        { basePep with nationality := none } = PepType.foreign := by
  refine ⟨?_, ?_, ?_⟩
  · exact (C3_pep_type_derivation (some mnCountry)
      { basePep with organization_type := some OrgType.international_org,
                     nationality := some deCountry }).1 rfl
  · exact ((C3_pep_type_derivation (some mnCountry)
      { basePep with nationality := some mnCountry }).2 (by decide)).1 mnCountry rfl rfl
  · exact ((C3_pep_type_derivation (some mnCountry)
      { basePep with nationality := none }).2 (by decide)).2
      (by rintro ⟨c, hc, -⟩; simp at hc)

/-- Claim C5: with no last review the next EDD review is today; otherwise
it is the last review advanced by 1, 3, 6 or 12 months per frequency, with
month arithmetic clamped to the last valid day of the target month, so
January 31 plus one month is February 29 in the 2024 leap year and
February 28 in 2023. -/
theorem C5_next_review :
    (∀ (today : Date) (f : MonitoringFrequency),
        compute_next_review today none f = some today) ∧
    (∀ (today d : Date) (f : MonitoringFrequency),
        compute_next_review today (some d) f =
          some (addMonths d (months_for_frequency f))) ∧
    months_for_frequency MonitoringFrequency.monthly = 1 ∧
    months_for_frequency MonitoringFrequency.quarterly = 3 ∧
    months_for_frequency MonitoringFrequency.semi_annual = 6 ∧
    months_for_frequency MonitoringFrequency.annual = 12 ∧
    (∀ today : Date,
        compute_next_review today (some (Date.mk 2024 1 31)) MonitoringFrequency.monthly =
          some (Date.mk 2024 2 29)) ∧
    (∀ today : Date,
        compute_next_review today (some (Date.mk 2023 1 31)) MonitoringFrequency.monthly =
          some (Date.mk 2023 2 28)) ∧
    (∀ (d : Date) (f : MonitoringFrequency),
        (addMonths d (months_for_frequency f)).day ≤
          daysInMonth (addMonths d (months_for_frequency f)).year
            (addMonths d (months_for_frequency f)).month) := by
  refine ⟨fun today f => rfl, fun today d f => rfl, rfl, rfl, rfl, rfl,
    fun today => rfl, fun today => rfl, fun d f => ?_⟩
  simp only [addMonths]
  exact min_le_right _ _

/-- Claim C8: a deceased PEP is classified low risk regardless of every
other field, the deceased rule having highest precedence. -/
theorem C8_deceased_low (y : Int) (r : PepRec) (hs : r.status = PepStatus.deceased) :
    compute_risk_level y r = RiskLevel.low := by
  simp [compute_risk_level, hs]

/-- Witness for C8 at a concrete input: a deceased international-org
director with a recent end year is still low risk. -/
theorem C8_deceased_low_witness :
    compute_risk_level 2026
      { basePep with status := PepStatus.deceased, pep_type := PepType.international,
                     position := Position.intl_director, end_date := 2026 }
      = RiskLevel.low :=
  C8_deceased_low 2026
    { basePep with status := PepStatus.deceased, pep_type := PepType.international,
                   position := Position.intl_director, end_date := 2026 } rfl

/-- Claim C9: persisting a record whose type is international while its
organization type is not an international organization fails with the
consistency validation error, so it can never be stored (and is never
silently corrected). -/
theorem C9_international_rejected (store : List PepRec) (r : PepRec)
    (h1 : r.pep_type = PepType.international)
    (h2 : r.organization_type ≠ some OrgType.international_org) :
    persist store r = Except.error ValidationError.international_pep_org ∧
    ∀ s, persist store r ≠ Except.ok s := by
  have hchk : check_pep_type_consistency r =
      Except.error ValidationError.international_pep_org := by
    simp [check_pep_type_consistency, h1, h2]
  have hp : persist store r = Except.error ValidationError.international_pep_org := by
    simp [persist, validate_pep, hchk]
  exact ⟨hp, fun s hs => by rw [hp] at hs; exact Except.noConfusion hs⟩

/-- Witness for C9 at a concrete input: an international PEP attached to a
government organization is rejected. -/
theorem C9_international_rejected_witness :
    persist []
        { basePep with pep_type := PepType.international,
                       organization_type := some OrgType.government }
      = Except.error ValidationError.international_pep_org :=
  (C9_international_rejected []
      { basePep with pep_type := PepType.international,
                     organization_type := some OrgType.government }
      rfl (by decide)).1

/-- A record with Mongolian nationality whose name passes the source regex
but has no Cyrillic name and no Latin transliteration in the sense of the
claim wording: the leading segment is a dot and a space, with no Cyrillic
letter at all. -/
def mongolPepBad : PepRec :=
  { basePep with name := ". (ab)", nationality := some mnCountry }

/-- Counterexample to claim C10 as stated: the record named `. (ab)` with
Mongolian nationality is persisted without any validation error although
its name does not consist of a Cyrillic name followed by a parenthesized
Latin transliteration (it contains no Cyrillic letter), so the stored-name
invariant claimed does not hold. -/
theorem C10_counterexample :
    persist [] mongolPepBad = Except.ok [mongolPepBad] ∧
    claimed_mongolian_pattern ". (ab)" = false := by
  exact ⟨rfl, rfl⟩

/-- Claim C10 as amended: for a record with nationality code MN that
passes the type-consistency constraint, persistence succeeds exactly when
the name is set and matches the source pattern — a nonempty run of
Cyrillic characters, whitespace, dots or hyphens ending in a whitespace,
then a parenthesized nonempty run of word characters, whitespace, dots or
hyphens — and otherwise fails with the name-format validation error; the
leading run need not contain a Cyrillic letter and the parenthesized part
need not be Latin. -/
theorem C10_amended_mn_name_invariant (store : List PepRec) (r : PepRec) (c : Country)
    (hn : r.nationality = some c) (hc : c.code = "MN")
    (hok : check_pep_type_consistency r = Except.ok ()) :
    (persist store r = Except.ok (store ++ [r]) ↔
        (r.name ≠ "" ∧ mongolian_name_match r.name = true)) ∧
    (¬ (r.name ≠ "" ∧ mongolian_name_match r.name = true) →
        persist store r = Except.error ValidationError.mongolian_name_format) := by
  by_cases hmatch : r.name ≠ "" ∧ mongolian_name_match r.name = true
  · have : persist store r = Except.ok (store ++ [r]) := by
      simp [persist, validate_pep, hok, check_mongolian_name_format, hn, hc, hmatch]
    exact ⟨by simp [this, hmatch], fun hno => absurd hmatch hno⟩
  · have : persist store r = Except.error ValidationError.mongolian_name_format := by
      simp [persist, validate_pep, hok, check_mongolian_name_format, hn, hc, hmatch]
    refine ⟨?_, fun _ => this⟩
    rw [this]
    simp [hmatch]

/-- Witness for the amended C10 at a concrete input: a Mongolian PEP named
in the Cyrillic-plus-parenthesized-transliteration form is persisted. -/
theorem C10_amended_mn_name_invariant_witness :
    persist [] { basePep with name := "Аб Вг (Ab Vg)", nationality := some mnCountry }
      = Except.ok [{ basePep with name := "Аб Вг (Ab Vg)", nationality := some mnCountry }] := by
  have h := (C10_amended_mn_name_invariant []
    { basePep with name := "Аб Вг (Ab Vg)", nationality := some mnCountry }
    mnCountry rfl rfl rfl).1
  exact h.mpr ⟨by decide, by rfl⟩

/-- Counterexample to claim C1 as stated: on a unique internal match the
screening result is a match with the record id recorded, but the
confidence score is left at its never-written unset value instead of the
claimed 1.0; and zero internal results do not yield a no-match outcome —
they escalate externally, here producing a possible match. -/
theorem C1_counterexample :
    ((action_screen_name (env_ok ExternalResponse.malformed) [basePep] rec0).record.result
        = some ScreenResult.match_ ∧
      (action_screen_name (env_ok ExternalResponse.malformed) [basePep] rec0).record.matched_pep_id
        = some basePep.id ∧
      (action_screen_name (env_ok ExternalResponse.malformed) [basePep] rec0).record.confidence_score
        = none) ∧
    (action_screen_name (env_ok (ExternalResponse.parsed verdict_pep)) [] rec0).record.result
        = some ScreenResult.possible :=
  ⟨⟨rfl, rfl, rfl⟩, rfl⟩

/-- Claim C1 as amended: exactly one internal result yields a match with
the matched record id recorded but the confidence score untouched (it is
never written); more than one yields a possible match with score and
matched id untouched, requiring manual disambiguation; zero internal
results escalate to the external classifier, whose parsed verdict yields a
possible match when it asserts PEP status and a no-match outcome
otherwise. -/
theorem C1_internal_resolution (env : ScreenEnv) (rec : ScreeningRec)
    (p q : PepRec) (ps : List PepRec) :
    ((action_screen_name env [p] rec).record.result = some ScreenResult.match_ ∧
      (action_screen_name env [p] rec).record.matched_pep_id = some p.id ∧
      (action_screen_name env [p] rec).record.confidence_score = rec.confidence_score) ∧
    ((action_screen_name env (p :: q :: ps) rec).record.result = some ScreenResult.possible ∧
      (action_screen_name env (p :: q :: ps) rec).record.matched_pep_id = rec.matched_pep_id ∧
      (action_screen_name env (p :: q :: ps) rec).record.confidence_score
        = rec.confidence_score) ∧
    (∀ v, env.genai_available = true → env.api_key ≠ none →
        env.ai_response = ExternalResponse.parsed v →
        (action_screen_name env [] rec).record.result =
          some (if v.is_pep then ScreenResult.possible else ScreenResult.no_match) ∧
        (action_screen_name env [] rec).record.confidence_score = rec.confidence_score) := by
  refine ⟨⟨rfl, rfl, rfl⟩, ⟨rfl, rfl, rfl⟩, fun v hg hk hresp => ?_⟩
  rcases Option.ne_none_iff_exists.mp hk with ⟨key, hkey⟩
  cases hv : v.is_pep <;>
    simp [action_screen_name, hg, ← hkey, hresp, hv]

/-- Witness for the amended C1 at concrete inputs: a not-PEP external
verdict on an internally empty search records a no-match outcome with the
score still unset. -/
theorem C1_internal_resolution_witness :
    (action_screen_name (env_ok (ExternalResponse.parsed verdict_no)) [] rec0).record.result
        = some ScreenResult.no_match ∧
    (action_screen_name (env_ok (ExternalResponse.parsed verdict_no)) [] rec0).record.confidence_score
        = none := by
  have h := ((C1_internal_resolution (env_ok (ExternalResponse.parsed verdict_no)) rec0
      basePep basePep []).2.2) verdict_no rfl (by decide) rfl
  exact ⟨h.1, h.2⟩

/-- Claim C6: when the external classifier response cannot be parsed as
the structured verdict, the screening raises the malformed-response error,
leaves the screening record untouched (so no outcome is recorded), and in
particular never records a no-match outcome. -/
theorem C6_malformed_response (env : ScreenEnv) (rec : ScreeningRec) (k : String)
    (hg : env.genai_available = true) (hk : env.api_key = some k)
    (hm : env.ai_response = ExternalResponse.malformed) :
    (action_screen_name env [] rec).error = some ScreenError.malformed_external_response ∧
    (action_screen_name env [] rec).record = rec ∧
    (action_screen_name env [] rec).record.result = rec.result := by
  refine ⟨?_, ?_, ?_⟩ <;> simp [action_screen_name, hg, hk, hm]

/-- Witness for C6 at a concrete input. -/
theorem C6_malformed_response_witness :
    (action_screen_name (env_ok ExternalResponse.malformed) [] rec0).error
        = some ScreenError.malformed_external_response ∧
    (action_screen_name (env_ok ExternalResponse.malformed) [] rec0).record = rec0 :=
  ⟨(C6_malformed_response (env_ok ExternalResponse.malformed) rec0 "k" rfl rfl rfl).1,
   (C6_malformed_response (env_ok ExternalResponse.malformed) rec0 "k" rfl rfl rfl).2.1⟩

/-- Claim C7: any nonempty internal search result terminates the screening
without invoking the external classifier and without error; the external
classifier is invoked only on an empty internal result, and, with the
library and API key configured, it is then always invoked. -/
theorem C7_internal_first (env : ScreenEnv) (rec : ScreeningRec)
    (matched_peps : List PepRec) :
    (matched_peps ≠ [] →
        (action_screen_name env matched_peps rec).external_called = false ∧
        (action_screen_name env matched_peps rec).error = none) ∧
    ((action_screen_name env matched_peps rec).external_called = true →
        matched_peps = []) ∧
    (matched_peps = [] → env.genai_available = true → env.api_key ≠ none →
        (action_screen_name env matched_peps rec).external_called = true) := by
  match matched_peps with
  | [] =>
      refine ⟨fun h => absurd rfl h, fun _ => rfl, fun _ hg hk => ?_⟩
      rcases Option.ne_none_iff_exists.mp hk with ⟨key, hkey⟩
      cases hresp : env.ai_response with
      | parsed v =>
          cases hv : v.is_pep <;>
            simp [action_screen_name, hg, ← hkey, hresp, hv]
      | malformed => simp [action_screen_name, hg, ← hkey, hresp]
      | transport_failure => simp [action_screen_name, hg, ← hkey, hresp]
  | [p] =>
      exact ⟨fun _ => ⟨rfl, rfl⟩, fun h => Bool.noConfusion h, fun h => List.noConfusion h⟩
  | p :: q :: ps =>
      exact ⟨fun _ => ⟨rfl, rfl⟩, fun h => Bool.noConfusion h, fun h => List.noConfusion h⟩

/-- Witness for C7 at concrete inputs: one internal candidate means no
external call; an empty internal search with the classifier configured
means the external call happens. -/
theorem C7_internal_first_witness :
    (action_screen_name (env_ok ExternalResponse.malformed) [basePep] rec0).external_called
        = false ∧
    (action_screen_name (env_ok (ExternalResponse.parsed verdict_no)) [] rec0).external_called
        = true :=
  ⟨((C7_internal_first (env_ok ExternalResponse.malformed) rec0 [basePep]).1
      (by simp)).1,
   (C7_internal_first (env_ok (ExternalResponse.parsed verdict_no)) rec0 []).2.2
      rfl rfl (by decide)⟩

/-- A flagged record is no longer due: flagging sets the very status the
search domain excludes. -/
theorem due_for_review_flag (today : Date) (p : PepRec) :
    due_for_review today (flag_review p) = false := by
  simp [due_for_review, flag_review]

/-- After one scheduler pass, no record of the updated store is due. -/
theorem due_for_review_after_pass (today : Date) (p : PepRec) :
    due_for_review today
        (if due_for_review today p then flag_review p else p) = false := by
  by_cases h : due_for_review today p = true
  · simp [h, due_for_review_flag]
  · simp only [Bool.not_eq_true] at h
    simp [h]

/-- A list all of whose members fail the predicate filters to nil. -/
theorem filter_eq_nil_of_false {α : Type} (p : α → Bool) (l : List α)
    (h : ∀ a ∈ l, p a = false) : l.filter p = [] := by
  induction l with
  | nil => rfl
  | cons a tl ih =>
      have ha := h a (List.mem_cons_self a tl)
      have htl := ih fun b hb => h b (List.mem_cons_of_mem a hb)
      simp [List.filter, ha, htl]

/-- Claim C4: the sweep selects exactly the records that are high risk,
active, with a next EDD review on or before the sweep date and not
already flagged; each selected record is flagged, and a second run on the
resulting store selects nothing, changes nothing and notifies nobody, so
with distinct record ids each eligible record is notified exactly once
across the two runs. -/
theorem C4_sweep_idempotent (today : Date) (peps : List PepRec)
    (hnd : (peps.map PepRec.id).Nodup) :
    (∀ p, due_for_review today p = true ↔
        (p.risk_level = RiskLevel.high ∧ p.status = PepStatus.active ∧
         (∃ d, p.edd_next_review = some d ∧ dateLe d today = true) ∧
         p.edd_status ≠ EddStatus.review_needed)) ∧
    (run_edd_review_scheduler true today
        (run_edd_review_scheduler true today peps).peps).notified = [] ∧
    (run_edd_review_scheduler true today
        (run_edd_review_scheduler true today peps).peps).peps =
      (run_edd_review_scheduler true today peps).peps ∧
    (∀ p ∈ peps, due_for_review today p = true →
        List.count p.id
          ((run_edd_review_scheduler true today peps).notified ++
           (run_edd_review_scheduler true today
              (run_edd_review_scheduler true today peps).peps).notified) = 1) := by
  have hiff : ∀ p, due_for_review today p = true ↔
      (p.risk_level = RiskLevel.high ∧ p.status = PepStatus.active ∧
       (∃ d, p.edd_next_review = some d ∧ dateLe d today = true) ∧
       p.edd_status ≠ EddStatus.review_needed) := by
    intro p
    cases h : p.edd_next_review with
    | none => simp [due_for_review, h]
    | some d => simp [due_for_review, h]; tauto
  by_cases hsel : peps.filter (due_for_review today) = []
  · have e1 : run_edd_review_scheduler true today peps =
        { peps := peps, notified := [] } := by
      simp [run_edd_review_scheduler, hsel]
    refine ⟨hiff, ?_, ?_, ?_⟩
    · rw [e1]; simp [run_edd_review_scheduler, hsel]
    · rw [e1]; simp [run_edd_review_scheduler, hsel]
    · intro p hp hdue
      exact absurd (List.mem_filter.mpr ⟨hp, hdue⟩) (by simp [hsel])
  · have e1 : run_edd_review_scheduler true today peps =
        { peps := peps.map (fun p => if due_for_review today p then flag_review p else p),
          notified := (peps.filter (due_for_review today)).map PepRec.id } := by
      simp [run_edd_review_scheduler, hsel]
    have hfilter2 :
        (peps.map (fun p => if due_for_review today p then flag_review p else p)).filter
          (due_for_review today) = [] := by
      refine filter_eq_nil_of_false _ _ fun a ha => ?_
      rcases List.mem_map.mp ha with ⟨p, hp, rfl⟩
      exact due_for_review_after_pass today p
    have e2 : run_edd_review_scheduler true today
        (peps.map (fun p => if due_for_review today p then flag_review p else p)) =
        { peps := peps.map (fun p => if due_for_review today p then flag_review p else p),
          notified := [] } := by
      simp [run_edd_review_scheduler, hfilter2]
    refine ⟨hiff, ?_, ?_, ?_⟩
    · rw [e1]; simp only [e2]
    · rw [e1]; simp only [e2]
    · intro p hp hdue
      rw [e1]
      simp only [e2, List.append_nil]
      have hsub : List.Sublist ((peps.filter (due_for_review today)).map PepRec.id)
          (peps.map PepRec.id) :=
        List.Sublist.map PepRec.id (List.filter_sublist peps)
      have hnodup : ((peps.filter (due_for_review today)).map PepRec.id).Nodup :=
        List.Nodup.sublist hsub hnd
      have hmem : p.id ∈ (peps.filter (due_for_review today)).map PepRec.id :=
        List.mem_map.mpr ⟨p, List.mem_filter.mpr ⟨hp, hdue⟩, rfl⟩
      exact List.count_eq_one_of_mem hnodup hmem

/-- Witness for C4 at a concrete input: one eligible high-risk active
record with an overdue review date is notified exactly once across two
consecutive sweeps. -/
theorem C4_sweep_idempotent_witness :
    List.count
      (PepRec.id { basePep with id := 7, edd_next_review := some (Date.mk 2025 1 1) })
      ((run_edd_review_scheduler true (Date.mk 2025 1 1)
          [{ basePep with id := 7, edd_next_review := some (Date.mk 2025 1 1) }]).notified ++
       (run_edd_review_scheduler true (Date.mk 2025 1 1)
          (run_edd_review_scheduler true (Date.mk 2025 1 1)
            [{ basePep with id := 7, edd_next_review := some (Date.mk 2025 1 1) }]).peps).notified)
      = 1 :=
  (C4_sweep_idempotent (Date.mk 2025 1 1)
      [{ basePep with id := 7, edd_next_review := some (Date.mk 2025 1 1) }]
      (by decide)).2.2.2
    { basePep with id := 7, edd_next_review := some (Date.mk 2025 1 1) }
    (List.mem_singleton.mpr rfl) (by decide)

end PepChecker
